import Mathlib

/-!
Verification of the HSE write-buffer (c0) handle and the token-bucket rate
limiter against their specification.

The repository fragment carries the declarations of the token bucket
(src/src/util/include/hse_util/token_bucket.h) and the unit tests of the c0
write-buffer handle (src/src/c0/test/c0_test.c).  The bodies of c0_open,
c0_close, c0_sync, tbkt_init, tbkt_reinit and tbkt_request are not part of
the fragment, so they are modelled from the specification, with the
declarations and the expectations of the unit tests as cross-checks.
-/

namespace Hse

/-- Error taxonomy of the design.  StoreError carries the shared ingest
store error code verbatim (the tests use errno values such as ENOSPC = 28,
EDOM = 33, EAGAIN = 11). -/
inductive Err where
  | OutOfMemory : Err
  | InvalidArgument : Err
  | InvalidState : Err
  | StoreError : Nat → Err
  | InvalidConfiguration : Err
deriving DecidableEq

/-- A c0 write-buffer handle; skidx is the storage index assigned by the
shared store at registration (the tests use mczk_skidx = 13). -/
structure C0Handle where
  skidx : Nat
deriving DecidableEq

/-- Environment of one c0_open call: whether resolving the shared store
from the owner token succeeds, whether the handle allocation succeeds, and
what the store registration entry point reports (none = success). -/
structure OpenEnv where
  resolveOk : Bool
  allocOk : Bool
  registerErr : Option Nat
  skidx : Nat
deriving DecidableEq

/-- Observable outcome of one c0_open call: the result, how many times the
store register entry point was invoked, how many allocation attempts were
made, and how many allocations are still live (unreleased) at return. -/
structure OpenOutcome where
  result : Except Err C0Handle
  registerCalls : Nat
  allocCalls : Nat
  allocLive : Nat

/-- Modelled from the spec: c0_open (its body is not in the fragment).
Resolves the shared ingest store from the owner token; if resolution fails
it fails with InvalidState, with no allocation or registration performed.
Then allocates handle state; if allocation fails it fails with OutOfMemory
with no side effect.  Then registers with the shared store; if registration
fails, the store error is surfaced and the allocated state is released
before returning, so no handle is returned.  On success the registered
handle is returned. -/
def c0_open (env : OpenEnv) : OpenOutcome :=
  if env.resolveOk = false then
    { result := .error .InvalidState, registerCalls := 0, allocCalls := 0, allocLive := 0 }
  else if env.allocOk = false then
    { result := .error .OutOfMemory, registerCalls := 0, allocCalls := 1, allocLive := 0 }
  else
    match env.registerErr with
    | some e =>
        { result := .error (.StoreError e), registerCalls := 1, allocCalls := 1, allocLive := 0 }
    | none =>
        { result := .ok ⟨env.skidx⟩, registerCalls := 1, allocCalls := 1, allocLive := 1 }

/-- Environment of one c0_close call: what the store sync and deregister
entry points report (none = success). -/
structure CloseEnv where
  syncErr : Option Nat
  deregErr : Option Nat
deriving DecidableEq

/-- Observable outcome of one c0_close call: the result (none = success),
how many times sync and deregister were invoked, and whether the
handle-local resources were released. -/
structure CloseOutcome where
  result : Option Err
  syncCalls : Nat
  deregCalls : Nat
  released : Bool
deriving DecidableEq

/-- Modelled from the spec: c0_close (its body is not in the fragment).
A null handle fails with InvalidArgument immediately, performing no other
action.  Otherwise, in fixed order: synchronize, capturing any error as
first_error; deregister unconditionally, even if sync failed, capturing any
error as second_error only if first_error is unset; release handle-local
resources regardless.  Returns first_error if set, else second_error if
set, else success. -/
def c0_close (handle : Option C0Handle) (env : CloseEnv) : CloseOutcome :=
  match handle with
  | none =>
      { result := some .InvalidArgument, syncCalls := 0, deregCalls := 0, released := false }
  | some _ =>
      let first_error : Option Err := env.syncErr.map .StoreError
      let second_error : Option Err :=
        if first_error = none then env.deregErr.map .StoreError else none
      { result := match first_error with
                  | some e => some e
                  | none => second_error
      , syncCalls := 1
      , deregCalls := 1
      , released := true }

/-- A mutation record of the data model: a key, a value or tombstone or
range tombstone, and a caller-assigned sequence number. -/
inductive MutValue where
  | val : List Nat → MutValue
  | tombstone : MutValue
  | rangeTombstone : MutValue
deriving DecidableEq

/-- One mutation forwarded to the shared ingest store. -/
structure Mutation where
  key : List Nat
  value : MutValue
  seq : Nat
deriving DecidableEq

/-- State of the shared ingest store seen through one handle: mutations
already flushed to the compaction tier and mutations still pending. -/
structure StoreState where
  flushed : List Mutation
  pending : List Mutation
deriving DecidableEq

/-- Modelled from the spec: c0_put (its body is not in the fragment)
forwards the mutation to the shared store tagged with the sequence
number; the store appends it to the pending mutation log. -/
def c0_put (s : StoreState) (key value : List Nat) (seq : Nat) : StoreState :=
  { s with pending := s.pending ++ [⟨key, .val value, seq⟩] }

/-- Modelled from the spec: the shared store sync entry point flushes all
pending mutations to the compaction tier. -/
def c0sk_sync (s : StoreState) : StoreState :=
  { flushed := s.flushed ++ s.pending, pending := [] }

/-- Modelled from the spec: c0_sync (its body is not in the fragment)
forwards to the shared store sync, making all mutations submitted through
the handle durable up to the point of the call; none = success. -/
def c0_sync (s : StoreState) : StoreState × Option Err :=
  (c0sk_sync s, none)

/-- Token bucket state, after struct tbkt of token_bucket.h (the spinlock
is the mutual-exclusion device and carries no arithmetic content). -/
structure Tbkt where
  tb_refill_time : Nat
  tb_balance : Nat
  tb_burst : Nat
  tb_rate : Nat
  tb_dt_max : Nat
deriving DecidableEq

/-- Modelled from the spec: tbkt_init (its body is not in the fragment;
token_bucket.h declares void tbkt_init(struct tbkt *tb, u64 burst, u64 rate)).
Sets balance to burst_capacity (the bucket starts full) and records the
current time as the last-refill timestamp.  The spec does not say how the
elapsed-time bound tb_dt_max is chosen, so it is a parameter here. -/
def tbkt_init (now burst rate dt_max : Nat) : Tbkt :=
  { tb_refill_time := now
  , tb_balance := burst
  , tb_burst := burst
  , tb_rate := rate
  , tb_dt_max := dt_max }

/-- The header declares tbkt_init returning void: initialization has no
error channel, so its result, seen as a fallible computation, is always ok
with the initialized bucket. -/
def tbkt_init_result (now burst rate dt_max : Nat) : Except Err Tbkt :=
  .ok (tbkt_init now burst rate dt_max)

/-- Modelled from the spec: tbkt_reinit (its body is not in the fragment)
updates capacity and rate without forcing balance to zero, clamping
balance to the new burst_capacity if it now exceeds it. -/
def tbkt_reinit (tb : Tbkt) (burst rate : Nat) : Tbkt :=
  { tb with
    tb_burst := burst
  , tb_rate := rate
  , tb_balance := min tb.tb_balance burst }

/-- Modelled from the spec: the refill step of tbkt_request (steps 2 and 3):
compute the elapsed time since the last refill, clamp it to tb_dt_max,
top up the balance by elapsed times rate clamped to tb_burst, and advance
the last-refill timestamp. -/
def tbkt_refill (tb : Tbkt) (now : Nat) : Tbkt :=
  let dt := min (now - tb.tb_refill_time) tb.tb_dt_max
  { tb with
    tb_balance := min (tb.tb_balance + dt * tb.tb_rate) tb.tb_burst
  , tb_refill_time := now }

/-- Modelled from the spec: tbkt_request (its body is not in the fragment;
token_bucket.h declares u64 tbkt_request(struct tbkt *tb, u64 tokens), with
the current time read inside the lock, passed explicitly here).  After the
refill step, if the balance covers the request the tokens are subtracted
and 0 is returned (granted, no wait); otherwise the balance is left alone
and the wait needed for the balance to reach tokens at the configured rate
is returned: the least whole number of time units t with
balance + t * rate at least tokens, the spec expression
(tokens - balance) / rate rounded up to whole units.  When the rate is
zero a shortfall can never be repaid; the spec mandates treating this as
always wait forever (initialization, declared void, cannot reject it),
rendered at the u64 interface as the largest representable wait. -/
def tbkt_request (tb : Tbkt) (now tokens : Nat) : Tbkt × Nat :=
  let tb := tbkt_refill tb now
  if tokens ≤ tb.tb_balance then
    ({ tb with tb_balance := tb.tb_balance - tokens }, 0)
  else if tb.tb_rate = 0 then
    (tb, 2 ^ 64 - 1)
  else
    (tb, (tokens - tb.tb_balance + tb.tb_rate - 1) / tb.tb_rate)

/-- A sequence of requests: each entry advances the clock by a delta and
requests a number of tokens; the state is threaded through. -/
def tbkt_run (tb : Tbkt) : List (Nat × Nat) → Tbkt
  | [] => tb
  | op :: ops => tbkt_run (tbkt_request tb (tb.tb_refill_time + op.fst) op.snd).fst ops

/-- A request never changes the configured burst capacity. -/
theorem tbkt_request_fst_burst (tb : Tbkt) (now tokens : Nat) :
    (tbkt_request tb now tokens).fst.tb_burst = tb.tb_burst := by
  unfold tbkt_request tbkt_refill
  dsimp only
  split
  · rfl
  · split <;> rfl

/-- After any single request the balance is at most the burst capacity:
the refill step clamps the topped-up balance to tb_burst, and granting a
request only subtracts from it. -/
theorem tbkt_request_fst_balance_le (tb : Tbkt) (now tokens : Nat) :
    (tbkt_request tb now tokens).fst.tb_balance ≤ tb.tb_burst := by
  unfold tbkt_request tbkt_refill
  dsimp only
  split
  · exact le_trans (Nat.sub_le _ _) (min_le_right _ _)
  · split <;> exact min_le_right _ _

/-- Running any sequence of requests preserves balance at most burst. -/
theorem tbkt_run_invariant (tb : Tbkt) (ops : List (Nat × Nat))
    (h : tb.tb_balance ≤ tb.tb_burst) :
    (tbkt_run tb ops).tb_balance ≤ (tbkt_run tb ops).tb_burst := by
  induction ops generalizing tb with
  | nil => exact h
  | cons op ops ih =>
      refine ih _ ?_
      rw [tbkt_request_fst_burst]
      exact tbkt_request_fst_balance_le tb (tb.tb_refill_time + op.fst) op.snd

/-- C1: for every close of a valid handle, sync is invoked and deregister
is invoked (even when sync failed); the result is the sync error if sync
failed, else the deregister error if deregister failed, else success.  In
particular a sync error is returned even when deregister subsequently
fails with a different error, and when sync succeeds a deregister error is
returned. -/
theorem close_error_precedence (h : C0Handle) (env : CloseEnv) :
    (c0_close (some h) env).syncCalls = 1 ∧
    (c0_close (some h) env).deregCalls = 1 ∧
    (∀ a, env.syncErr = some a →
      (c0_close (some h) env).result = some (.StoreError a)) ∧
    (env.syncErr = none →
      (c0_close (some h) env).result = env.deregErr.map .StoreError) ∧
    ((c0_close (some h) env).result = none ↔
      env.syncErr = none ∧ env.deregErr = none) := by
  obtain ⟨syncErr, deregErr⟩ := env
  cases syncErr <;> cases deregErr <;> simp [c0_close]

/-- Witness for C1: with a sync error EDOM = 33 and a different deregister
error EAGAIN = 11 the sync error is returned; with sync succeeding and
deregister failing with EDOM the deregister error is returned; deregister
was invoked in the first scenario. -/
theorem close_error_precedence_witness :
    (c0_close (some ⟨13⟩) ⟨some 33, some 11⟩).result = some (.StoreError 33) ∧
    (c0_close (some ⟨13⟩) ⟨none, some 33⟩).result = some (.StoreError 33) ∧
    (c0_close (some ⟨13⟩) ⟨some 33, some 11⟩).deregCalls = 1 :=
  ⟨(close_error_precedence ⟨13⟩ ⟨some 33, some 11⟩).2.2.1 33 rfl,
   (close_error_precedence ⟨13⟩ ⟨none, some 33⟩).2.2.2.1 rfl,
   (close_error_precedence ⟨13⟩ ⟨some 33, some 11⟩).2.1⟩

/-- C2: close of a null handle returns InvalidArgument and performs no
other action: sync and deregister are not invoked, whatever the store
environment would have answered. -/
theorem close_null_invalid_argument (env : CloseEnv) :
    c0_close none env =
      { result := some .InvalidArgument
      , syncCalls := 0
      , deregCalls := 0
      , released := false } :=
  rfl

/-- C3: when the handle allocation fails (the store having been resolved),
open returns OutOfMemory, no handle is returned, and the store register
entry point is never invoked. -/
theorem open_alloc_failure_oom (env : OpenEnv)
    (hres : env.resolveOk = true) (halloc : env.allocOk = false) :
    (c0_open env).result = .error .OutOfMemory ∧
    (∀ h, (c0_open env).result ≠ .ok h) ∧
    (c0_open env).registerCalls = 0 := by
  simp [c0_open, hres, halloc]

/-- Witness for C3: an open call whose allocation fails. -/
theorem open_alloc_failure_oom_witness :
    ((c0_open ⟨true, false, none, 13⟩).result = .error .OutOfMemory ∧
      (∀ h, (c0_open ⟨true, false, none, 13⟩).result ≠ .ok h) ∧
      (c0_open ⟨true, false, none, 13⟩).registerCalls = 0) :=
  open_alloc_failure_oom ⟨true, false, none, 13⟩ rfl rfl

/-- C4: when resolution of the shared ingest store from the owner token
fails, open returns InvalidState, no handle is returned, and neither an
allocation nor a registration occurs. -/
theorem open_resolve_failure_invalid_state (env : OpenEnv)
    (hres : env.resolveOk = false) :
    (c0_open env).result = .error .InvalidState ∧
    (∀ h, (c0_open env).result ≠ .ok h) ∧
    (c0_open env).allocCalls = 0 ∧
    (c0_open env).registerCalls = 0 := by
  simp [c0_open, hres]

/-- Witness for C4: an open call whose store resolution fails. -/
theorem open_resolve_failure_invalid_state_witness :
    ((c0_open ⟨false, true, none, 13⟩).result = .error .InvalidState ∧
      (∀ h, (c0_open ⟨false, true, none, 13⟩).result ≠ .ok h) ∧
      (c0_open ⟨false, true, none, 13⟩).allocCalls = 0 ∧
      (c0_open ⟨false, true, none, 13⟩).registerCalls = 0) :=
  open_resolve_failure_invalid_state ⟨false, true, none, 13⟩ rfl

/-- C5: when the store registration fails, open returns exactly the store
error, no handle is returned even though allocation succeeded, the
allocated state is released before returning, and the register entry point
was invoked exactly once. -/
theorem open_register_failure (env : OpenEnv) (e : Nat)
    (hres : env.resolveOk = true) (halloc : env.allocOk = true)
    (hreg : env.registerErr = some e) :
    (c0_open env).result = .error (.StoreError e) ∧
    (∀ h, (c0_open env).result ≠ .ok h) ∧
    (c0_open env).allocCalls = 1 ∧
    (c0_open env).allocLive = 0 ∧
    (c0_open env).registerCalls = 1 := by
  simp [c0_open, hres, halloc, hreg]

/-- Witness for C5: an open call whose registration fails with ENOSPC = 28. -/
theorem open_register_failure_witness :
    ((c0_open ⟨true, true, some 28, 13⟩).result = .error (.StoreError 28) ∧
      (∀ h, (c0_open ⟨true, true, some 28, 13⟩).result ≠ .ok h) ∧
      (c0_open ⟨true, true, some 28, 13⟩).allocCalls = 1 ∧
      (c0_open ⟨true, true, some 28, 13⟩).allocLive = 0 ∧
      (c0_open ⟨true, true, some 28, 13⟩).registerCalls = 1) :=
  open_register_failure ⟨true, true, some 28, 13⟩ 28 rfl rfl rfl

/-- C6: sync is idempotent: after one sync, a second sync with no
intervening mutation leaves the store state unchanged (a no-op) and
succeeds. -/
theorem sync_idempotent (s : StoreState) :
    c0_sync (c0_sync s).fst = ((c0_sync s).fst, none) := by
  simp [c0_sync, c0sk_sync]

/-- C7: for every initial bucket state and every sequence of requests with
arbitrary elapsed-time deltas (including deltas larger than tb_dt_max),
after each operation the balance satisfies 0 at most balance at most the
burst capacity: the elapsed time is clamped to tb_dt_max before the rate
multiplication and the topped-up balance is clamped to tb_burst. -/
theorem tbkt_balance_invariant (tb : Tbkt) (ops : List (Nat × Nat)) (n : Nat)
    (h : n < ops.length) :
    0 ≤ (tbkt_run tb (ops.take (n + 1))).tb_balance ∧
    (tbkt_run tb (ops.take (n + 1))).tb_balance ≤
      (tbkt_run tb (ops.take (n + 1))).tb_burst := by
  refine ⟨Nat.zero_le _, ?_⟩
  cases ops with
  | nil => exact absurd h (Nat.not_lt_zero n)
  | cons op ops =>
      show (tbkt_run tb (op :: ops.take n)).tb_balance ≤
        (tbkt_run tb (op :: ops.take n)).tb_burst
      rw [tbkt_run]
      refine tbkt_run_invariant _ _ ?_
      rw [tbkt_request_fst_burst]
      exact tbkt_request_fst_balance_le tb (tb.tb_refill_time + op.fst) op.snd

/-- Witness for C7: a bucket of burst 10 and rate 1 run through a delta of
100 (far above the bound tb_dt_max = 5) and then a grant; the invariant
holds after the second operation. -/
theorem tbkt_balance_invariant_witness :
    1 < ([((100 : Nat), (3 : Nat)), (7, 20)] : List (Nat × Nat)).length ∧
    (0 ≤ (tbkt_run (tbkt_init 0 10 1 5)
        (([((100 : Nat), (3 : Nat)), (7, 20)] : List (Nat × Nat)).take 2)).tb_balance ∧
      (tbkt_run (tbkt_init 0 10 1 5)
        (([((100 : Nat), (3 : Nat)), (7, 20)] : List (Nat × Nat)).take 2)).tb_balance ≤
      (tbkt_run (tbkt_init 0 10 1 5)
        (([((100 : Nat), (3 : Nat)), (7, 20)] : List (Nat × Nat)).take 2)).tb_burst) :=
  ⟨by decide, tbkt_balance_invariant (tbkt_init 0 10 1 5) [(100, 3), (7, 20)] 1 (by decide)⟩

/-- C8: init sets the balance to the burst capacity (the bucket starts
full) and records the current time as the last-refill timestamp; after
init with burst 10 and rate 1 an immediate request of 10 is granted with
zero wait, an immediate subsequent request of 1 returns a nonzero wait,
and advancing time by N units tops the balance up by min N tb_dt_max
times the rate, capped at the burst capacity. -/
theorem tbkt_init_starts_full :
    (∀ now burst rate dtm,
      (tbkt_init now burst rate dtm).tb_balance = burst ∧
      (tbkt_init now burst rate dtm).tb_refill_time = now) ∧
    (tbkt_request (tbkt_init 0 10 1 100) 0 10).snd = 0 ∧
    (tbkt_request (tbkt_request (tbkt_init 0 10 1 100) 0 10).fst 0 1).snd ≠ 0 ∧
    (∀ tb N,
      (tbkt_refill tb (tb.tb_refill_time + N)).tb_balance =
        min (tb.tb_balance + min N tb.tb_dt_max * tb.tb_rate) tb.tb_burst) := by
  refine ⟨fun now burst rate dtm => ⟨rfl, rfl⟩, by decide, by decide, fun tb N => ?_⟩
  simp [tbkt_refill, Nat.add_sub_cancel_left]

/-- C9 counterexample: a bucket initialized with burst 10 and rate 0 (an
unsatisfiable configuration: a request of 11 tokens exceeding the burst
could never be repaid at rate 0) is not rejected.  The header declares
void tbkt_init(struct tbkt *tb, u64 burst, u64 rate): there is no error
channel, so the outcome is the initialized bucket, never the error kind
InvalidConfiguration. -/
theorem tbkt_init_rate_zero_not_rejected_cex :
    tbkt_init_result 0 10 0 100 = .ok (tbkt_init 0 10 0 100) ∧
    tbkt_init_result 0 10 0 100 ≠ .error .InvalidConfiguration :=
  ⟨rfl, fun h => Except.noConfusion h⟩

/-- C9 amended: tbkt_init is declared returning void and so cannot reject
any configuration; initialization with rate 0 succeeds and yields a bucket
with balance equal to the burst capacity and the current time recorded. -/
theorem tbkt_init_rate_zero_initializes (now burst dtm : Nat) :
    tbkt_init_result now burst 0 dtm = .ok (tbkt_init now burst 0 dtm) ∧
    (tbkt_init now burst 0 dtm).tb_balance = burst ∧
    (tbkt_init now burst 0 dtm).tb_refill_time = now :=
  ⟨rfl, rfl, rfl⟩

/-- C10: tbkt_request is total and infallible (a plain function with no
error channel, matching u64 tbkt_request(struct tbkt *tb, u64 tokens) in
the header): for every bucket state and every requested token count it
returns a single wait duration within u64 range whenever the token count
is, and the wait is zero exactly when the request was granted (the
refilled balance covered the tokens); a caller only ever observes a wait
hint, never a failure.  With a positive rate the wait never exceeds the
requested token count; at rate zero an ungranted request waits forever,
rendered as the saturated u64 wait. -/
theorem tbkt_request_no_failure (tb : Tbkt) (now tokens : Nat) :
    (0 < tb.tb_rate → (tbkt_request tb now tokens).snd ≤ tokens) ∧
    (tokens < 2 ^ 64 → (tbkt_request tb now tokens).snd < 2 ^ 64) ∧
    ((tbkt_request tb now tokens).snd = 0 ↔
      tokens ≤ (tbkt_refill tb now).tb_balance) := by
  by_cases hle : tokens ≤ (tbkt_refill tb now).tb_balance
  · have hsnd : (tbkt_request tb now tokens).snd = 0 := by
      unfold tbkt_request
      dsimp only
      rw [if_pos hle]
    rw [hsnd]
    exact ⟨fun _ => Nat.zero_le _, fun h => by norm_num, by simp [hle]⟩
  · by_cases hr : tb.tb_rate = 0
    · have hr2 : (tbkt_refill tb now).tb_rate = 0 := hr
      have hsnd : (tbkt_request tb now tokens).snd = 2 ^ 64 - 1 := by
        unfold tbkt_request
        dsimp only
        rw [if_neg hle, if_pos hr2]
      rw [hsnd]
      refine ⟨fun hpos => absurd hr (by omega), fun _ => by norm_num, ?_⟩
      exact ⟨fun h0 => absurd h0 (by norm_num), fun hc => absurd hc hle⟩
    · have hrate : 0 < tb.tb_rate := Nat.pos_of_ne_zero hr
      have hr2 : ¬(tbkt_refill tb now).tb_rate = 0 := hr
      have hsnd : (tbkt_request tb now tokens).snd =
          (tokens - (tbkt_refill tb now).tb_balance + tb.tb_rate - 1) / tb.tb_rate := by
        unfold tbkt_request
        dsimp only
        rw [if_neg hle, if_neg hr2]
        rfl
      have hb : (tbkt_refill tb now).tb_balance < tokens := not_le.mp hle
      have hone : 1 ≤
          (tokens - (tbkt_refill tb now).tb_balance + tb.tb_rate - 1) / tb.tb_rate :=
        (Nat.one_le_div_iff hrate).mpr (by omega)
      have hmul : tokens ≤ tb.tb_rate * tokens := Nat.le_mul_of_pos_left tokens hrate
      have htop : (tokens - (tbkt_refill tb now).tb_balance + tb.tb_rate - 1) /
          tb.tb_rate ≤ tokens := by
        rw [Nat.div_le_iff_le_mul_add_pred hrate]
        omega
      rw [hsnd]
      exact ⟨fun _ => htop, fun h => lt_of_le_of_lt htop h,
        ⟨fun h0 => absurd h0 (by omega), fun hc => absurd hc hle⟩⟩

/-- Witness for C10: a bucket with rate 0 and empty balance asked for 7
tokens returns a single u64-bounded, nonzero wait (the request was not
granted and can never be repaid), and at rate 2 the wait for the same
request is bounded by the 7 tokens requested. -/
theorem tbkt_request_no_failure_witness :
    (tbkt_request ⟨0, 0, 10, 0, 5⟩ 0 7).snd < 2 ^ 64 ∧
    ((tbkt_request ⟨0, 0, 10, 0, 5⟩ 0 7).snd = 0 → False) ∧
    (tbkt_request ⟨0, 0, 10, 2, 5⟩ 0 7).snd ≤ 7 :=
  ⟨(tbkt_request_no_failure ⟨0, 0, 10, 0, 5⟩ 0 7).2.1 (by norm_num),
   fun h => absurd ((tbkt_request_no_failure ⟨0, 0, 10, 0, 5⟩ 0 7).2.2.mp h) (by decide),
   (tbkt_request_no_failure ⟨0, 0, 10, 2, 5⟩ 0 7).1 (by decide)⟩

end Hse
